import Mathlib

/-!
Verification of the claim-staging service in Custom-Claims-Back-end/main.py.

The service keeps a short-lived key/value cache of client-supplied metadata
keyed by user identifier and later injects it as custom claims into a token
issuance response.  The code selects between a networked Redis backend and an
in-process fallback dictionary at startup; the networked backend is an
external collaborator, so this development embeds the in-process fallback
path (redis_client = None), which is the code actually present in main.py
for every operation.

Modelling choices:
- Wall-clock instants (Python time.time(), a float of seconds) are rationals
  passed explicitly to each operation.
- The fallback dictionary frontend_data_store is an association list keyed by
  String; a Python dict holds at most one binding per key, which insertEntry
  preserves by erasing the key before consing.
- Each helper wraps its body in try/except.  A possible exception raised
  inside the body (serialization or backend failure) is modelled by a Fault
  parameter; the body is an Except-valued function and the helper is the
  catch wrapper the source puts around it.
- JSON null is modelled by Option.none; the custom_data value staged by the
  frontend may be null, and Python dict.get returns that null (the key is
  present), not the supplied default.
-/

namespace CCP

/-- Wall-clock instants and durations in seconds (Python time.time() floats). -/
abbrev Time := ℚ

/-- A possible exception raised inside a try block: some msg is a raised
exception with that message, none is normal completion. -/
abbrev Fault := Option String

/-- The dict built by store_frontend_data (main.py lines 176-181) and passed
to store_data: business_unit, device_info, custom_data (possibly null) and a
server-side timestamp. -/
structure DataToStore where
  business_unit : String
  device_info : String
  custom_data : Option String
  timestamp : Time
  deriving DecidableEq, Repr

/-- The dict held in frontend_data_store: the stored payload plus the
`_timestamp` key added by store_data (main.py line 69) for manual expiry. -/
structure StoredRecord where
  business_unit : String
  device_info : String
  custom_data : Option String
  timestamp : Time
  underscore_timestamp : Time
  deriving DecidableEq, Repr

/-- The fallback storage frontend_data_store (main.py line 59), a dict from
user identifier to stored record, as an association list with unique keys. -/
abbrev Store := List (String × StoredRecord)

/-- Keys bound in a store (dict membership). -/
def lookupKey (key : String) (s : Store) : Option StoredRecord :=
  (s.find? (fun p => p.1 == key)).map Prod.snd

/-- Removal of every binding of a key (Python del / dict.pop). -/
def eraseKey (key : String) (s : Store) : Store :=
  s.filter (fun p => !(p.1 == key))

/-- Dict assignment frontend_data_store[key] = data: overwrites any previous
binding of the key. -/
def insertEntry (key : String) (r : StoredRecord) (s : Store) : Store :=
  (key, r) :: eraseKey key s

/-- Number of bindings a store holds for a key. -/
def countKey (key : String) (s : Store) : Nat :=
  (s.filter (fun p => p.1 == key)).length

/-- Body of store_data (main.py lines 64-71), fallback branch: add the
`_timestamp` key with the current time and assign into the dict, returning
True.  A Fault models an exception raised inside the try block. -/
def store_data_body (fault : Fault) (now : Time) (key : String) (data : DataToStore)
    (s : Store) : Except String (Bool × Store) :=
  match fault with
  | some e => Except.error e
  | none =>
      Except.ok (true, insertEntry key
        { business_unit := data.business_unit
          device_info := data.device_info
          custom_data := data.custom_data
          timestamp := data.timestamp
          underscore_timestamp := now } s)

/-- store_data (main.py lines 62-74): the try/except wrapper around the body;
any exception is caught and surfaced as the boolean False with the store
unchanged. -/
def store_data (fault : Fault) (now : Time) (key : String) (data : DataToStore)
    (s : Store) : Bool × Store :=
  match store_data_body fault now key data s with
  | Except.ok r => r
  | Except.error _ => (false, s)

/-- Body of get_data (main.py lines 78-88), fallback branch: fetch the dict
entry; an entry strictly older than 300 seconds is deleted and reported
absent (lazy cleanup), otherwise it is returned.  The key is an Option
because custom_claims_provider may pass user_id = None; no None key is ever
stored, so dict.get(None) yields None. -/
def get_data_body (fault : Fault) (now : Time) (key : Option String)
    (s : Store) : Except String (Option StoredRecord × Store) :=
  match fault with
  | some e => Except.error e
  | none =>
      match key with
      | none => Except.ok (none, s)
      | some k =>
          match lookupKey k s with
          | none => Except.ok (none, s)
          | some d =>
              if now - d.underscore_timestamp > 300 then
                Except.ok (none, eraseKey k s)
              else
                Except.ok (some d, s)

/-- get_data (main.py lines 76-91): the try/except wrapper around the body;
any exception is caught and surfaced as the absence indicator None with the
store unchanged. -/
def get_data (fault : Fault) (now : Time) (key : Option String)
    (s : Store) : Option StoredRecord × Store :=
  match get_data_body fault now key s with
  | Except.ok r => r
  | Except.error _ => (none, s)

/-- Body of delete_data (main.py lines 95-100), fallback branch:
frontend_data_store.pop(key, None), a no-op when the key is absent, then
return True. -/
def delete_data_body (fault : Fault) (key : Option String)
    (s : Store) : Except String (Bool × Store) :=
  match fault with
  | some e => Except.error e
  | none =>
      match key with
      | none => Except.ok (true, s)
      | some k => Except.ok (true, eraseKey k s)

/-- delete_data (main.py lines 93-103): the try/except wrapper around the
body; any exception is caught and surfaced as the boolean False with the
store unchanged. -/
def delete_data (fault : Fault) (key : Option String) (s : Store) : Bool × Store :=
  match delete_data_body fault key s with
  | Except.ok r => r
  | Except.error _ => (false, s)

/-- Request body of POST /api/store-frontend-data (pydantic model
FrontendData, main.py lines 143-148).  The timestamp field is supplied by the
client. -/
structure FrontendData where
  user_id : String
  business_unit : String
  device_info : String
  custom_data : Option String
  timestamp : Time
  deriving DecidableEq, Repr

/-- Outcome of the store_frontend_data handler: the success JSON body
(main.py lines 187-193) or an HTTP 500 error response (lines 195-199). -/
inductive StoreResponse where
  | success (message : String) (user_id : String) (expires_in : Nat) (storage_type : String)
  | serverError (status : Nat) (detail : String)
  deriving DecidableEq, Repr

/-- store_frontend_data (main.py lines 170-199): build data_to_store with the
server-side time.time() as its timestamp (the client timestamp field is never
read), stage it under user_id with a 300 second TTL, and report success or an
HTTP 500.  Both time.time() calls of the request (lines 180 and 69) happen
inside one handler invocation and are modelled by the single instant now.
The HTTPException raised on failure at line 195 is itself caught by the
except at line 197 and re-raised as a 500 response. -/
def store_frontend_data (fault : Fault) (now : Time) (frontend_data : FrontendData)
    (s : Store) : StoreResponse × Store :=
  let data_to_store : DataToStore :=
    { business_unit := frontend_data.business_unit
      device_info := frontend_data.device_info
      custom_data := frontend_data.custom_data
      timestamp := now }
  match store_data fault now frontend_data.user_id data_to_store s with
  | (true, s1) =>
      (StoreResponse.success "Data stored successfully" frontend_data.user_id 300 "memory", s1)
  | (false, s1) => (StoreResponse.serverError 500 "Error storing data: Failed to store data", s1)

/-- The authenticationContext.user mapping as read by the handler: the only
keys it inspects are userPrincipalName and id (main.py line 216); none
stands for a key that is absent or bound to JSON null. -/
structure UserContext where
  userPrincipalName : Option String
  id : Option String
  deriving DecidableEq, Repr

/-- authenticationContext (pydantic model, main.py lines 150-156).  The
client, protocol and service-principal members are required by the schema but
never read by the handler, so they are carried as an opaque remainder. -/
structure AuthenticationContext where
  user : UserContext
  correlationId : String
  deriving DecidableEq, Repr

/-- data member of the token issuance event (main.py lines 158-159). -/
structure TokenIssuanceEventData where
  authenticationContext : AuthenticationContext
  deriving DecidableEq, Repr

/-- The token issuance event (main.py lines 161-163). -/
structure TokenIssuanceEvent where
  type : String
  data : TokenIssuanceEventData
  deriving DecidableEq, Repr

/-- Python truthiness of a string-or-null value: null and the empty string
are falsy. -/
def pyTruthy (v : Option String) : Bool :=
  match v with
  | some str => str != ""
  | none => false

/-- Python expression a or b on string-or-null values: a when truthy,
otherwise b exactly as it is (possibly null or empty). -/
def pyOr (a b : Option String) : Option String :=
  if pyTruthy a then a else b

/-- user_id extraction (main.py line 216):
user_context.get("userPrincipalName") or user_context.get("id"). -/
def extract_user_id (user_context : UserContext) : Option String :=
  pyOr user_context.userPrincipalName user_context.id

/-- The custom claims mapping the handler builds (main.py lines 225-253).
The five base fields are always present; the quartet businessUnit,
deviceInfo, customData, dataSource is added by one of the two update branches
and dataAge only by the frontend branch (none means the field is absent).
customData is none when the claim value is JSON null. -/
structure CustomClaims where
  apiVersion : String
  correlationId : String
  timestamp : String
  source : String
  storage_type : String
  businessUnit : String
  deviceInfo : String
  customData : Option String
  dataSource : String
  dataAge : Option Time
  deriving DecidableEq, Repr

/-- One element of the actions array (main.py lines 259-262): the fixed
@odata.type tag and the claims mapping. -/
structure ClaimsAction where
  odata_type : String
  claims : CustomClaims
  deriving DecidableEq, Repr

/-- The data object of the response envelope (main.py lines 258-263). -/
structure ClaimsResponseData where
  actions : List ClaimsAction
  deriving DecidableEq, Repr

/-- The response envelope returned to the identity provider (main.py lines
257-264). -/
structure ClaimsResponse where
  data : ClaimsResponseData
  deriving DecidableEq, Repr

/-- custom_claims_provider (main.py lines 203-267): extract a user identifier
from the authentication context, look up staged data, compose the claims
mapping (frontend branch with dataAge and delete-after-use, or default
branch), and wrap it in the protocol envelope.  now is the time.time()
instant of the request and nowIso the datetime.utcnow().isoformat() string;
getFault and delFault model exceptions raised inside the get_data and
delete_data try blocks, which those helpers catch themselves.  In the
frontend branch the dict keys business_unit, device_info, custom_data and
timestamp are always present in a stored record, so the dict.get defaults
"Unknown", "" and time.time() at lines 236-240 are never taken; in
particular stored_data.get("custom_data", "") returns the stored value even
when it is JSON null. -/
def custom_claims_provider (getFault delFault : Fault) (now : Time) (nowIso : String)
    (event : TokenIssuanceEvent) (s : Store) : ClaimsResponse × Store :=
  let user_id := extract_user_id event.data.authenticationContext.user
  let res := get_data getFault now user_id s
  let stored_data := res.1
  let s1 := res.2
  let base : CustomClaims :=
    { apiVersion := "1.0.0"
      correlationId := event.data.authenticationContext.correlationId
      timestamp := nowIso
      source := "custom-claims-provider"
      storage_type := "memory"
      businessUnit := ""
      deviceInfo := ""
      customData := none
      dataSource := ""
      dataAge := none }
  match stored_data with
  | some d =>
      let custom_claims : CustomClaims :=
        { base with
          businessUnit := d.business_unit
          deviceInfo := d.device_info
          customData := d.custom_data
          dataSource := "frontend"
          dataAge := some (now - d.timestamp) }
      let s2 := (delete_data delFault user_id s1).2
      ({ data := { actions := [{ odata_type := "microsoft.graph.tokenIssuanceStart.provideClaimsForToken"
                                 claims := custom_claims }] } }, s2)
  | none =>
      let custom_claims : CustomClaims :=
        { base with
          businessUnit := "Default"
          deviceInfo := "Server-Generated"
          customData := some "No frontend data available"
          dataSource := "default"
          dataAge := none }
      ({ data := { actions := [{ odata_type := "microsoft.graph.tokenIssuanceStart.provideClaimsForToken"
                                 claims := custom_claims }] } }, s1)

/-! Basic facts about the association-list model of the fallback dict. -/

theorem lookupKey_cons (k' : String) (p : String × StoredRecord) (t : Store) :
    lookupKey k' (p :: t) = if p.1 == k' then some p.2 else lookupKey k' t := by
  simp only [lookupKey, List.find?]
  cases hb : (p.1 == k') <;> simp [hb]

theorem eraseKey_cons (k : String) (p : String × StoredRecord) (t : Store) :
    eraseKey k (p :: t) = if p.1 == k then eraseKey k t else p :: eraseKey k t := by
  simp only [eraseKey, List.filter_cons]
  cases hb : (p.1 == k) <;> simp [hb]

theorem countKey_cons (k : String) (p : String × StoredRecord) (t : Store) :
    countKey k (p :: t) = if p.1 == k then countKey k t + 1 else countKey k t := by
  simp only [countKey, List.filter_cons]
  cases hb : (p.1 == k) <;> simp [hb]

theorem lookupKey_eraseKey_self (k : String) (s : Store) :
    lookupKey k (eraseKey k s) = none := by
  induction s with
  | nil => rfl
  | cons p t ih =>
      rw [eraseKey_cons]
      cases hb : (p.1 == k) with
      | true => simpa [hb] using ih
      | false =>
          rw [if_neg (by simp [hb]), lookupKey_cons]
          simpa [hb] using ih

theorem lookupKey_eraseKey_ne (k k' : String) (s : Store) (h : k' ≠ k) :
    lookupKey k' (eraseKey k s) = lookupKey k' s := by
  induction s with
  | nil => rfl
  | cons p t ih =>
      rw [eraseKey_cons, lookupKey_cons k' p t]
      cases hb : (p.1 == k) with
      | true =>
          have hk : p.1 = k := by simpa using hb
          have hb' : (p.1 == k') = false := by
            simp only [beq_eq_false_iff_ne, ne_eq, hk]
            exact fun he => h he.symm
          rw [if_pos rfl, if_neg (by simp [hb']), ih]
      | false =>
          rw [if_neg (by simp [hb]), lookupKey_cons]
          cases hb' : (p.1 == k') <;> simp [hb', ih]

theorem lookupKey_insertEntry_self (k : String) (r : StoredRecord) (s : Store) :
    lookupKey k (insertEntry k r s) = some r := by
  simp [insertEntry, lookupKey_cons]

theorem lookupKey_insertEntry_ne (k k' : String) (r : StoredRecord) (s : Store) (h : k' ≠ k) :
    lookupKey k' (insertEntry k r s) = lookupKey k' s := by
  rw [insertEntry, lookupKey_cons]
  rw [if_neg (by simpa using fun he => h he.symm)]
  exact lookupKey_eraseKey_ne k k' s h

theorem countKey_eraseKey_self (k : String) (s : Store) :
    countKey k (eraseKey k s) = 0 := by
  induction s with
  | nil => rfl
  | cons p t ih =>
      rw [eraseKey_cons]
      cases hb : (p.1 == k) with
      | true => simpa [hb] using ih
      | false =>
          rw [if_neg (by simp [hb]), countKey_cons]
          simpa [hb] using ih

theorem countKey_insertEntry_self (k : String) (r : StoredRecord) (s : Store) :
    countKey k (insertEntry k r s) = 1 := by
  rw [insertEntry, countKey_cons, if_pos (by simp), countKey_eraseKey_self]

theorem eraseKey_eraseKey (k : String) (s : Store) :
    eraseKey k (eraseKey k s) = eraseKey k s := by
  induction s with
  | nil => rfl
  | cons p t ih =>
      rw [eraseKey_cons]
      cases hb : (p.1 == k) with
      | true => simpa [hb] using ih
      | false =>
          rw [if_neg (by simp [hb]), eraseKey_cons, if_neg (by simp [hb]), ih]

theorem eraseKey_insertEntry_self (k : String) (r : StoredRecord) (s : Store) :
    eraseKey k (insertEntry k r s) = eraseKey k s := by
  rw [insertEntry, eraseKey_cons, if_pos (by simp), eraseKey_eraseKey]

/-- The record that staging a request at server time now leaves in the
fallback dict: the payload of store_frontend_data with the additional
`_timestamp` key set by store_data. -/
def stagedRecord (fd : FrontendData) (now : Time) : StoredRecord :=
  { business_unit := fd.business_unit
    device_info := fd.device_info
    custom_data := fd.custom_data
    timestamp := now
    underscore_timestamp := now }

/-- The claims mapping carried by the first element of the actions array of a
response, when one exists. -/
def firstClaims (r : ClaimsResponse) : Option CustomClaims :=
  r.data.actions.head?.map ClaimsAction.claims

/-- The claims issuance run after a successful stage of fd at time now1,
consumed at time now2 while the record is unexpired: the response carries the
staged fields with dataAge = now2 - now1, and the record is deleted before
the handler returns. -/
theorem consume_after_stage (now1 now2 : Time) (nowIso : String) (fd : FrontendData)
    (s : Store) (event : TokenIssuanceEvent)
    (hupn : event.data.authenticationContext.user.userPrincipalName = some fd.user_id)
    (hne : fd.user_id ≠ "")
    (httl : ¬ (now2 - now1 > 300)) :
    custom_claims_provider none none now2 nowIso event (store_frontend_data none now1 fd s).2 =
      ({ data := { actions := [{
            odata_type := "microsoft.graph.tokenIssuanceStart.provideClaimsForToken"
            claims := { apiVersion := "1.0.0"
                        correlationId := event.data.authenticationContext.correlationId
                        timestamp := nowIso
                        source := "custom-claims-provider"
                        storage_type := "memory"
                        businessUnit := fd.business_unit
                        deviceInfo := fd.device_info
                        customData := fd.custom_data
                        dataSource := "frontend"
                        dataAge := some (now2 - now1) } }] } },
        eraseKey fd.user_id s) := by
  have huid : extract_user_id event.data.authenticationContext.user = some fd.user_id := by
    simp [extract_user_id, pyOr, pyTruthy, hupn, hne]
  have hs1 : (store_frontend_data none now1 fd s).2 =
      insertEntry fd.user_id (stagedRecord fd now1) s := rfl
  have hget : get_data none now2 (some fd.user_id)
        (insertEntry fd.user_id (stagedRecord fd now1) s) =
      (some (stagedRecord fd now1), insertEntry fd.user_id (stagedRecord fd now1) s) := by
    simp [get_data, get_data_body, lookupKey_insertEntry_self, stagedRecord, httl]
  rw [hs1]
  simp only [custom_claims_provider, huid, hget]
  simp [delete_data, delete_data_body, eraseKey_insertEntry_self, stagedRecord]

/-- A get whose key is null or has no binding in the store reports absence
and leaves the store unchanged, whether or not its try block raises. -/
theorem get_data_absent (getFault : Fault) (now : Time) (key : Option String) (s : Store)
    (habsent : key.bind (fun k => lookupKey k s) = none) :
    get_data getFault now key s = (none, s) := by
  cases getFault with
  | some e => rfl
  | none =>
      cases key with
      | none => rfl
      | some k =>
          have hlk : lookupKey k s = none := by simpa using habsent
          simp [get_data, get_data_body, hlk]

/-- The claims issuance run when no record is bound to the extracted user
identifier (or a get fault hides it): the response carries exactly the
default fields and the store is unchanged. -/
theorem provider_default_of_absent (getFault delFault : Fault) (now : Time) (nowIso : String)
    (event : TokenIssuanceEvent) (s : Store)
    (habsent : (extract_user_id event.data.authenticationContext.user).bind
      (fun k => lookupKey k s) = none) :
    custom_claims_provider getFault delFault now nowIso event s =
      ({ data := { actions := [{
            odata_type := "microsoft.graph.tokenIssuanceStart.provideClaimsForToken"
            claims := { apiVersion := "1.0.0"
                        correlationId := event.data.authenticationContext.correlationId
                        timestamp := nowIso
                        source := "custom-claims-provider"
                        storage_type := "memory"
                        businessUnit := "Default"
                        deviceInfo := "Server-Generated"
                        customData := some "No frontend data available"
                        dataSource := "default"
                        dataAge := none } }] } }, s) := by
  simp only [custom_claims_provider, get_data_absent getFault now _ s habsent]

/-! Concrete sample values used by the closed witness and counterexample
theorems. -/

/-- The staged request of the scenario in the spec: user u1, business unit
Finance, device iPhone15, null custom data; the client timestamp field is an
arbitrary value. -/
def fdA : FrontendData :=
  { user_id := "u1"
    business_unit := "Finance"
    device_info := "iPhone15"
    custom_data := none
    timestamp := 123 }

/-- The payload dict the scenario request stores (server timestamp 0). -/
def dataA : DataToStore :=
  { business_unit := "Finance"
    device_info := "iPhone15"
    custom_data := none
    timestamp := 0 }

/-- A user mapping whose principal name is u1. -/
def userA : UserContext := { userPrincipalName := some "u1", id := none }

/-- A token issuance event for user u1. -/
def eventA : TokenIssuanceEvent :=
  { type := "microsoft.graph.authenticationEvent.tokenIssuanceStart"
    data := { authenticationContext := { user := userA, correlationId := "corr-1" } } }

/-- The record the scenario leaves in the fallback dict at server time 0. -/
def recA : StoredRecord := stagedRecord fdA 0

/-- C8: in the in-process fallback store the expiry comparison is strict: a
get still returns an entry whose age is exactly 300 seconds (or less) as
present, leaving the store untouched; only entries strictly older than 300
seconds are treated as absent. -/
theorem C8_expiry_comparison_strict (now : Time) (k : String) (d : StoredRecord) (s : Store)
    (hfound : lookupKey k s = some d)
    (hage : now - d.underscore_timestamp ≤ 300) :
    get_data none now (some k) s = (some d, s) := by
  simp [get_data, get_data_body, hfound, not_lt.mpr hage]

/-- Witness for C8 at the boundary: an entry aged exactly 300 seconds is
still returned as present. -/
theorem C8_expiry_comparison_strict_witness :
    lookupKey "u1" [("u1", recA)] = some recA ∧
    (300 : Time) - recA.underscore_timestamp ≤ 300 ∧
    get_data none 300 (some "u1") [("u1", recA)] = (some recA, [("u1", recA)]) :=
  ⟨by decide, by norm_num [recA, stagedRecord, fdA],
    C8_expiry_comparison_strict 300 "u1" recA [("u1", recA)] (by decide)
      (by norm_num [recA, stagedRecord, fdA])⟩

/-- C3: in the in-process fallback store an entry whose stored creation
timestamp is more than 300 seconds in the past is treated as absent by get
and is removed from the map at that get (lazy cleanup): the get reports
absence with exactly that key erased, and every other key of the map,
expired or not, is left untouched by the get. -/
theorem C3_lazy_expiry_on_get (now : Time) (k : String) (d : StoredRecord) (s : Store)
    (hfound : lookupKey k s = some d)
    (hexpired : now - d.underscore_timestamp > 300) :
    get_data none now (some k) s = (none, eraseKey k s) ∧
    lookupKey k (eraseKey k s) = none ∧
    ∀ k2, k2 ≠ k → lookupKey k2 (eraseKey k s) = lookupKey k2 s := by
  refine ⟨?_, lookupKey_eraseKey_self k s, fun k2 h2 => lookupKey_eraseKey_ne k k2 s h2⟩
  simp [get_data, get_data_body, hfound, hexpired]

/-- Witness for C3: an entry aged 301 seconds is reported absent and erased
at the get. -/
theorem C3_lazy_expiry_on_get_witness :
    lookupKey "u1" [("u1", recA)] = some recA ∧
    (301 : Time) - recA.underscore_timestamp > 300 ∧
    get_data none 301 (some "u1") [("u1", recA)] = (none, []) :=
  ⟨by decide, by norm_num [recA, stagedRecord, fdA], by
    have h := (C3_lazy_expiry_on_get 301 "u1" recA [("u1", recA)] (by decide)
      (by norm_num [recA, stagedRecord, fdA])).1
    exact h.trans (by decide)⟩

/-- C5: the store operations never propagate an exception to their caller:
an exception raised inside the try block of store_data, get_data or
delete_data is caught, the store is left unchanged, and the failure is
signaled only through the return value (the boolean False for put and
delete, the absence indicator None for get). -/
theorem C5_store_ops_never_propagate (fault : Fault) (now : Time) (k : String)
    (d : DataToStore) (key : Option String) (s : Store) (e : String)
    (hraised : fault = some e) :
    store_data fault now k d s = (false, s) ∧
    get_data fault now key s = (none, s) ∧
    delete_data fault key s = (false, s) := by
  subst hraised
  exact ⟨rfl, rfl, rfl⟩

/-- Witness for C5 with a concrete raised exception. -/
theorem C5_store_ops_never_propagate_witness :
    (some "boom" : Fault) = some "boom" ∧
    store_data (some "boom") 0 "u1" dataA [] = (false, []) ∧
    get_data (some "boom") 0 (some "u1") [] = (none, []) ∧
    delete_data (some "boom") (some "u1") [] = (false, []) := by
  have h := C5_store_ops_never_propagate (some "boom") 0 "u1" dataA (some "u1") [] "boom" rfl
  exact ⟨rfl, h.1, h.2.1, h.2.2⟩

/-- C2: for every userId that was never staged (the extracted identifier is
null or has no record in the store), consume returns the absence indicator
and the claims composer emits exactly the default fields businessUnit =
Default, deviceInfo = Server-Generated, customData = No frontend data
available, dataSource = default, with no dataAge field, the store left
unchanged. -/
theorem C2_default_claims_on_absence (getFault delFault : Fault) (now : Time)
    (nowIso : String) (event : TokenIssuanceEvent) (s : Store)
    (habsent : (extract_user_id event.data.authenticationContext.user).bind
      (fun k => lookupKey k s) = none) :
    (get_data getFault now (extract_user_id event.data.authenticationContext.user) s).1 =
      none ∧
    custom_claims_provider getFault delFault now nowIso event s =
      ({ data := { actions := [{
            odata_type := "microsoft.graph.tokenIssuanceStart.provideClaimsForToken"
            claims := { apiVersion := "1.0.0"
                        correlationId := event.data.authenticationContext.correlationId
                        timestamp := nowIso
                        source := "custom-claims-provider"
                        storage_type := "memory"
                        businessUnit := "Default"
                        deviceInfo := "Server-Generated"
                        customData := some "No frontend data available"
                        dataSource := "default"
                        dataAge := none } }] } }, s) := by
  refine ⟨?_, provider_default_of_absent getFault delFault now nowIso event s habsent⟩
  rw [get_data_absent getFault now _ s habsent]

/-- Witness for C2: an issue-claims run for user u1 against the empty store
returns the default claims. -/
theorem C2_default_claims_on_absence_witness :
    (extract_user_id eventA.data.authenticationContext.user).bind
      (fun k => lookupKey k ([] : Store)) = none ∧
    custom_claims_provider none none 5 "iso-def" eventA [] =
      ({ data := { actions := [{
            odata_type := "microsoft.graph.tokenIssuanceStart.provideClaimsForToken"
            claims := { apiVersion := "1.0.0"
                        correlationId := "corr-1"
                        timestamp := "iso-def"
                        source := "custom-claims-provider"
                        storage_type := "memory"
                        businessUnit := "Default"
                        deviceInfo := "Server-Generated"
                        customData := some "No frontend data available"
                        dataSource := "default"
                        dataAge := none } }] } }, []) :=
  ⟨by decide, (C2_default_claims_on_absence none none 5 "iso-def" eventA [] (by decide)).2⟩

/-- C7: every issue-claims response is the fixed protocol envelope: the data
object holds an actions array of exactly one action, the action carries the
fixed @odata.type tag, and its claims mapping always contains apiVersion
1.0.0, the correlationId of the request, the timestamp string, the source
and the storage_type, in addition to either the staged (frontend) or the
default fields. -/
theorem C7_response_envelope (getFault delFault : Fault) (now : Time) (nowIso : String)
    (event : TokenIssuanceEvent) (s : Store) :
    ∃ a : ClaimsAction,
      (custom_claims_provider getFault delFault now nowIso event s).1.data.actions = [a] ∧
      a.odata_type = "microsoft.graph.tokenIssuanceStart.provideClaimsForToken" ∧
      a.claims.apiVersion = "1.0.0" ∧
      a.claims.correlationId = event.data.authenticationContext.correlationId ∧
      a.claims.timestamp = nowIso ∧
      a.claims.source = "custom-claims-provider" ∧
      a.claims.storage_type = "memory" ∧
      (a.claims.dataSource = "frontend" ∨ a.claims.dataSource = "default") := by
  rcases hd : get_data getFault now (extract_user_id event.data.authenticationContext.user) s
    with ⟨sd, s1⟩
  cases sd with
  | some d =>
      simp only [custom_claims_provider, hd]
      exact ⟨_, rfl, rfl, rfl, rfl, rfl, rfl, rfl, Or.inl rfl⟩
  | none =>
      simp only [custom_claims_provider, hd]
      exact ⟨_, rfl, rfl, rfl, rfl, rfl, rfl, rfl, Or.inr rfl⟩

/-- C9: the client-supplied timestamp field of the store request body has no
effect on behaviour: two store requests identical except for that field give
the same response and the same resulting store, and the record actually
staged carries the server clock instant of the store call as its timestamp
(both in the payload and in the `_timestamp` expiry key), so a later dataAge
is computed from the server store time, not the client timestamp. -/
theorem C9_client_timestamp_has_no_effect (fault : Fault) (now t1 t2 : Time)
    (fd : FrontendData) (s : Store) :
    store_frontend_data fault now { fd with timestamp := t1 } s =
      store_frontend_data fault now { fd with timestamp := t2 } s ∧
    lookupKey fd.user_id (store_frontend_data none now fd s).2 =
      some (stagedRecord fd now) := by
  exact ⟨rfl, lookupKey_insertEntry_self fd.user_id (stagedRecord fd now) s⟩

/-- C1: staging data for a userId and then consuming it within the TTL
window returns exactly the staged fields (businessUnit, deviceInfo,
customData) plus a non-negative dataAge, and the record is deleted before
the first consume returns, so a second consume for the same userId (at any
later instant) returns absence via the default-claims response. -/
theorem C1_stage_then_consume_roundtrip (now1 now2 now3 : Time) (nowIso nowIso2 : String)
    (fd : FrontendData) (s : Store) (event : TokenIssuanceEvent)
    (hupn : event.data.authenticationContext.user.userPrincipalName = some fd.user_id)
    (hne : fd.user_id ≠ "")
    (hclock : now1 ≤ now2)
    (httl : now2 - now1 ≤ 300) :
    custom_claims_provider none none now2 nowIso event (store_frontend_data none now1 fd s).2 =
      ({ data := { actions := [{
            odata_type := "microsoft.graph.tokenIssuanceStart.provideClaimsForToken"
            claims := { apiVersion := "1.0.0"
                        correlationId := event.data.authenticationContext.correlationId
                        timestamp := nowIso
                        source := "custom-claims-provider"
                        storage_type := "memory"
                        businessUnit := fd.business_unit
                        deviceInfo := fd.device_info
                        customData := fd.custom_data
                        dataSource := "frontend"
                        dataAge := some (now2 - now1) } }] } },
        eraseKey fd.user_id s) ∧
    0 ≤ now2 - now1 ∧
    lookupKey fd.user_id (custom_claims_provider none none now2 nowIso event
      (store_frontend_data none now1 fd s).2).2 = none ∧
    firstClaims (custom_claims_provider none none now3 nowIso2 event
        (custom_claims_provider none none now2 nowIso event
          (store_frontend_data none now1 fd s).2).2).1 =
      some { apiVersion := "1.0.0"
             correlationId := event.data.authenticationContext.correlationId
             timestamp := nowIso2
             source := "custom-claims-provider"
             storage_type := "memory"
             businessUnit := "Default"
             deviceInfo := "Server-Generated"
             customData := some "No frontend data available"
             dataSource := "default"
             dataAge := none } := by
  have h := consume_after_stage now1 now2 nowIso fd s event hupn hne (not_lt.mpr httl)
  have huid : extract_user_id event.data.authenticationContext.user = some fd.user_id := by
    simp [extract_user_id, pyOr, pyTruthy, hupn, hne]
  have hstore : (custom_claims_provider none none now2 nowIso event
      (store_frontend_data none now1 fd s).2).2 = eraseKey fd.user_id s := by
    rw [h]
  have habs : (extract_user_id event.data.authenticationContext.user).bind
      (fun k => lookupKey k (eraseKey fd.user_id s)) = none := by
    rw [huid]
    simpa using lookupKey_eraseKey_self fd.user_id s
  refine ⟨h, sub_nonneg.mpr hclock, ?_, ?_⟩
  · rw [hstore]
    exact lookupKey_eraseKey_self fd.user_id s
  · rw [hstore,
      provider_default_of_absent none none now3 nowIso2 event (eraseKey fd.user_id s) habs]
    rfl

/-- Witness for C1: staging u1 at time 0 and consuming at time 1 returns the
staged Finance and iPhone15 fields with dataAge 1 and deletes the record. -/
theorem C1_stage_then_consume_roundtrip_witness :
    eventA.data.authenticationContext.user.userPrincipalName = some fdA.user_id ∧
    fdA.user_id ≠ "" ∧ (0 : Time) ≤ 1 ∧ (1 : Time) - 0 ≤ 300 ∧
    custom_claims_provider none none 1 "iso-a" eventA (store_frontend_data none 0 fdA []).2 =
      ({ data := { actions := [{
            odata_type := "microsoft.graph.tokenIssuanceStart.provideClaimsForToken"
            claims := { apiVersion := "1.0.0"
                        correlationId := eventA.data.authenticationContext.correlationId
                        timestamp := "iso-a"
                        source := "custom-claims-provider"
                        storage_type := "memory"
                        businessUnit := fdA.business_unit
                        deviceInfo := fdA.device_info
                        customData := fdA.custom_data
                        dataSource := "frontend"
                        dataAge := some ((1 : Time) - 0) } }] } },
        eraseKey fdA.user_id []) :=
  ⟨rfl, by decide, by norm_num, by norm_num,
    (C1_stage_then_consume_roundtrip 0 1 2 "iso-a" "iso-b" fdA [] eventA rfl (by decide)
      (by norm_num) (by norm_num)).1⟩

/-- C6: staging twice in sequence for the same userId overwrites: after the
two stage calls at most one record exists for that userId, and a subsequent
consume within the TTL of the second stage returns exactly the fields of the
last completed stage, with no merging of the two records. -/
theorem C6_second_stage_overwrites (now1 now2 now3 : Time) (nowIso : String)
    (fd1 fd2 : FrontendData) (s : Store) (event : TokenIssuanceEvent)
    (_hsame : fd1.user_id = fd2.user_id)
    (hupn : event.data.authenticationContext.user.userPrincipalName = some fd2.user_id)
    (hne : fd2.user_id ≠ "")
    (httl : now3 - now2 ≤ 300) :
    countKey fd2.user_id (store_frontend_data none now2 fd2
      (store_frontend_data none now1 fd1 s).2).2 ≤ 1 ∧
    custom_claims_provider none none now3 nowIso event
        (store_frontend_data none now2 fd2 (store_frontend_data none now1 fd1 s).2).2 =
      ({ data := { actions := [{
            odata_type := "microsoft.graph.tokenIssuanceStart.provideClaimsForToken"
            claims := { apiVersion := "1.0.0"
                        correlationId := event.data.authenticationContext.correlationId
                        timestamp := nowIso
                        source := "custom-claims-provider"
                        storage_type := "memory"
                        businessUnit := fd2.business_unit
                        deviceInfo := fd2.device_info
                        customData := fd2.custom_data
                        dataSource := "frontend"
                        dataAge := some (now3 - now2) } }] } },
        eraseKey fd2.user_id (store_frontend_data none now1 fd1 s).2) := by
  constructor
  · have hs2 : (store_frontend_data none now2 fd2
        (store_frontend_data none now1 fd1 s).2).2 =
        insertEntry fd2.user_id (stagedRecord fd2 now2)
          (store_frontend_data none now1 fd1 s).2 := rfl
    rw [hs2, countKey_insertEntry_self]
  · exact consume_after_stage now2 now3 nowIso fd2
      (store_frontend_data none now1 fd1 s).2 event hupn hne (not_lt.mpr httl)

/-- A second staged request for user u1 with different fields, used to
witness the overwrite claim. -/
def fdB : FrontendData :=
  { user_id := "u1"
    business_unit := "HR"
    device_info := "Pixel"
    custom_data := some "x"
    timestamp := 7 }

/-- Witness for C6: staging u1 as HR/Pixel and then as Finance/iPhone15
leaves a single record for u1. -/
theorem C6_second_stage_overwrites_witness :
    fdB.user_id = fdA.user_id ∧
    eventA.data.authenticationContext.user.userPrincipalName = some fdA.user_id ∧
    fdA.user_id ≠ "" ∧ (2 : Time) - 1 ≤ 300 ∧
    countKey fdA.user_id (store_frontend_data none 1 fdA
      (store_frontend_data none 0 fdB []).2).2 ≤ 1 :=
  ⟨rfl, rfl, by decide, by norm_num,
    (C6_second_stage_overwrites 0 1 2 "iso-e" fdB fdA [] eventA rfl rfl (by decide)
      (by norm_num)).1⟩

/-- C4 counterexample: running the scenario itself (store u1 with Finance,
iPhone15 and null customData at time 0, issue claims for u1 at time 1)
produces a claims mapping whose customData value is JSON null, not the empty
string: dict.get returns the stored null value because the custom_data key
is present, so the claimed customData = "" is false on this input. -/
theorem C4_counterexample_customData_is_null :
    (firstClaims (custom_claims_provider none none 1 "iso-c" eventA
        (store_frontend_data none 0 fdA []).2).1).map CustomClaims.customData =
      some none ∧
    (some (none : Option String) : Option (Option String)) ≠ some (some "") := by
  constructor
  · have h := consume_after_stage 0 1 "iso-c" fdA [] eventA rfl (by decide) (by norm_num)
    rw [h]
    rfl
  · decide

/-- C4 amended: storing userId u1 with businessUnit Finance, deviceInfo
iPhone15 and customData omitted/null, then issuing claims within 1 second
for a context whose user principal name is u1, yields response claims with
businessUnit Finance, deviceInfo iPhone15, customData null (not the empty
string), dataSource frontend, and a dataAge of 0 to 1 second. -/
theorem C4_amended_scenario (now1 now2 ct : Time) (nowIso : String) (s : Store)
    (hclock : now1 ≤ now2) (hwithin : now2 - now1 ≤ 1) :
    ∃ c : CustomClaims,
      firstClaims (custom_claims_provider none none now2 nowIso eventA
        (store_frontend_data none now1
          { user_id := "u1"
            business_unit := "Finance"
            device_info := "iPhone15"
            custom_data := none
            timestamp := ct } s).2).1 = some c ∧
      c.businessUnit = "Finance" ∧ c.deviceInfo = "iPhone15" ∧
      c.customData = none ∧ c.dataSource = "frontend" ∧
      c.dataAge = some (now2 - now1) ∧ 0 ≤ now2 - now1 ∧ now2 - now1 ≤ 1 := by
  have h := consume_after_stage now1 now2 nowIso
    { user_id := "u1"
      business_unit := "Finance"
      device_info := "iPhone15"
      custom_data := none
      timestamp := ct } s eventA rfl (by show ("u1" : String) ≠ ""; decide)
    (not_lt.mpr (le_trans hwithin (by norm_num)))
  rw [h]
  exact ⟨_, rfl, rfl, rfl, rfl, rfl, rfl, sub_nonneg.mpr hclock, hwithin⟩

/-- Witness for the amended C4 at server store time 0, consume time 1,
client timestamp 77, empty initial store. -/
theorem C4_amended_scenario_witness :
    (0 : Time) ≤ 1 ∧ (1 : Time) - 0 ≤ 1 ∧
    ∃ c : CustomClaims,
      firstClaims (custom_claims_provider none none 1 "iso-d" eventA
        (store_frontend_data none 0
          { user_id := "u1"
            business_unit := "Finance"
            device_info := "iPhone15"
            custom_data := none
            timestamp := 77 } []).2).1 = some c ∧
      c.businessUnit = "Finance" ∧ c.deviceInfo = "iPhone15" ∧
      c.customData = none ∧ c.dataSource = "frontend" ∧
      c.dataAge = some ((1 : Time) - 0) ∧ (0 : Time) ≤ 1 - 0 ∧ (1 : Time) - 0 ≤ 1 :=
  ⟨by norm_num, by norm_num,
    C4_amended_scenario 0 1 77 "iso-d" [] (by norm_num) (by norm_num)⟩

/-- A user mapping with no truthy identifier: the principal name is absent
and the id key holds the empty string. -/
def userEmpty : UserContext := { userPrincipalName := none, id := some "" }

/-- A token issuance event whose user mapping has no truthy identifier. -/
def eventEmpty : TokenIssuanceEvent :=
  { type := "microsoft.graph.authenticationEvent.tokenIssuanceStart"
    data := { authenticationContext := { user := userEmpty, correlationId := "corr-e" } } }

/-- A staged request whose user_id is the empty string. -/
def fdEmpty : FrontendData :=
  { user_id := ""
    business_unit := "BU"
    device_info := "Dev"
    custom_data := some "x"
    timestamp := 0 }

/-- C10 counterexample: with a user mapping whose userPrincipalName is
absent and whose id is the (falsy, non-truthy) empty string, the Python or
chain yields the empty string, not None, as user identifier; a record staged
under the empty-string userId is then found, and the response is the
frontend path, not the default-claims response.  So the claim that the
handler proceeds with a null identifier, finds no record and returns default
claims is false on this input. -/
theorem C10_counterexample_empty_id :
    pyTruthy userEmpty.userPrincipalName = false ∧
    pyTruthy userEmpty.id = false ∧
    extract_user_id userEmpty = some "" ∧
    extract_user_id userEmpty ≠ none ∧
    (firstClaims (custom_claims_provider none none 1 "iso-f" eventEmpty
        (store_frontend_data none 0 fdEmpty []).2).1).map CustomClaims.dataSource =
      some "frontend" ∧
    (some "frontend" : Option String) ≠ some "default" := by
  refine ⟨rfl, rfl, rfl, by decide, ?_, by decide⟩
  have hget : get_data none 1 (some "")
      (insertEntry "" (stagedRecord fdEmpty 0) []) =
      (some (stagedRecord fdEmpty 0), insertEntry "" (stagedRecord fdEmpty 0) []) := by
    simp [get_data, get_data_body, lookupKey_insertEntry_self, stagedRecord]
  have hs1 : (store_frontend_data none 0 fdEmpty []).2 =
      insertEntry "" (stagedRecord fdEmpty 0) [] := rfl
  rw [hs1]
  simp only [custom_claims_provider]
  rw [show extract_user_id eventEmpty.data.authenticationContext.user = some "" from rfl]
  rw [hget]
  rfl

/-- C10 amended: if the authenticationContext.user mapping contains neither
a truthy userPrincipalName nor a truthy id, the handler does not reject the
request but proceeds with the raw id value as user identifier; when the id
field is additionally absent or null, that identifier is null, the lookup
finds no record, and the default-claims response is returned with the store
unchanged.  (When the id field holds a falsy non-null value such as the
empty string, the identifier is that value and a record staged under it can
still be found, as the counterexample shows.) -/
theorem C10_amended_no_truthy_identifier (getFault delFault : Fault) (now : Time)
    (nowIso : String) (event : TokenIssuanceEvent) (s : Store)
    (hupn : pyTruthy event.data.authenticationContext.user.userPrincipalName = false)
    (hid : event.data.authenticationContext.user.id = none) :
    extract_user_id event.data.authenticationContext.user = none ∧
    (get_data getFault now (extract_user_id event.data.authenticationContext.user) s).1 =
      none ∧
    custom_claims_provider getFault delFault now nowIso event s =
      ({ data := { actions := [{
            odata_type := "microsoft.graph.tokenIssuanceStart.provideClaimsForToken"
            claims := { apiVersion := "1.0.0"
                        correlationId := event.data.authenticationContext.correlationId
                        timestamp := nowIso
                        source := "custom-claims-provider"
                        storage_type := "memory"
                        businessUnit := "Default"
                        deviceInfo := "Server-Generated"
                        customData := some "No frontend data available"
                        dataSource := "default"
                        dataAge := none } }] } }, s) := by
  have huid : extract_user_id event.data.authenticationContext.user = none := by
    simp [extract_user_id, pyOr, hupn, hid]
  have habs : (extract_user_id event.data.authenticationContext.user).bind
      (fun k => lookupKey k s) = none := by
    rw [huid]
    rfl
  refine ⟨huid, ?_, provider_default_of_absent getFault delFault now nowIso event s habs⟩
  rw [get_data_absent getFault now _ s habs]

/-- Witness for the amended C10: a user mapping with empty principal name
and absent id yields the null identifier and absence. -/
theorem C10_amended_no_truthy_identifier_witness :
    pyTruthy (some "") = false ∧
    ({ userPrincipalName := some "", id := none } : UserContext).id = none ∧
    extract_user_id { userPrincipalName := some "", id := none } = none :=
  ⟨by decide, rfl,
    (C10_amended_no_truthy_identifier none none 3 "iso-g"
      { type := "microsoft.graph.authenticationEvent.tokenIssuanceStart"
        data := { authenticationContext :=
          { user := { userPrincipalName := some "", id := none }
            correlationId := "corr-g" } } } [] (by decide) rfl).1⟩

end CCP
